import Mathlib

/-!
Verification of the Waku Filter full-node server
(`vendor/github.com/waku-org/go-waku/waku/v2/protocol/filter/server.go`):
the subscribe/unsubscribe/ping request handler, the subscription registry
and the push delivery pipeline, embedded shallowly in Lean.

The registry (`SubscribersMap`) and the package-level limits are declared
and used by `server.go` but their defining file is not part of the excerpt;
those definitions are modelled from the design document (spec §4.1, §6) and
are marked `Modelled from the spec:` in their doc comments.  Everything in
the `FilterServer` namespace below is a direct translation of `server.go`.
-/

set_option autoImplicit false

namespace WakuFilter

/-- Opaque peer identifier (libp2p `peer.ID`). -/
abbrev PeerID := String

/-- Coarse-grained channel name a message is published on. -/
abbrev PubsubTopic := String

/-- Fine-grained tag used for subscriber-side filtering. -/
abbrev ContentTopic := String

/-- A set of content topics, represented as a duplicate-free list
(insertion keeps the no-duplicate property). -/
abbrev ContentTopicSet := List ContentTopic

/-- One peer's subscriptions: a map from pubsub topic to its content-topic
set, represented as an association list. -/
abbrev PeerSubscription := List (PubsubTopic × ContentTopicSet)

/-- Modelled from the spec: the `SubscribersMap` registry state, a map from
peer identity to its subscription set (spec §3, §4.1).  The per-peer health
records are kept separately as flag events (see `FlagEvent`), since the
spec gives no internal structure for them.  Represented as an association
list with at most one entry per peer. -/
abbrev SubscribersMap := List (PeerID × PeerSubscription)

/-- Modelled from the spec: `Get(peer)` — snapshot read of a peer's full
subscription set, with an existence flag (spec §4.1). -/
def getPeer : SubscribersMap → PeerID → Option PeerSubscription
  | [], _ => none
  | (q, sub) :: rest, p => if q = p then some sub else getPeer rest p

/-- Modelled from the spec: `Has(peer)` — true iff the peer has any active
subscription (spec §4.1). -/
def has (s : SubscribersMap) (p : PeerID) : Bool :=
  (getPeer s p).isSome

/-- Modelled from the spec: `Count()` — number of distinct peers currently
subscribed (spec §4.1); the association list holds one entry per peer. -/
def count (s : SubscribersMap) : Nat :=
  s.length

/-- Insert a content topic into a set: a no-op when already present. -/
def ctInsert (c : ContentTopicSet) (ct : ContentTopic) : ContentTopicSet :=
  if ct ∈ c then c else c ++ [ct]

/-- Union a list of content topics into a set, one insertion at a time. -/
def ctUnion (c : ContentTopicSet) (cts : List ContentTopic) : ContentTopicSet :=
  cts.foldl ctInsert c

/-- Union-insert the content topics under one pubsub topic of a peer's
subscription, creating the topic entry when absent. -/
def setTopic : PeerSubscription → PubsubTopic → List ContentTopic → PeerSubscription
  | [], t, cts => [(t, ctUnion [] cts)]
  | (u, c) :: rest, t, cts =>
      if u = t then (u, ctUnion c cts) :: rest
      else (u, c) :: setTopic rest t cts

/-- Modelled from the spec: `Set(peer, pubsubTopic, contentTopics)` —
idempotent union-insert, creating the peer record if absent; enforces no
caps itself (spec §4.1). -/
def set : SubscribersMap → PeerID → PubsubTopic → List ContentTopic → SubscribersMap
  | [], p, t, cts => [(p, setTopic [] t cts)]
  | (q, sub) :: rest, p, t, cts =>
      if q = p then (q, setTopic sub t cts) :: rest
      else (q, sub) :: set rest p t cts

/-- Remove the given content topics under one pubsub topic; `none` when the
topic is absent; an emptied topic entry is dropped. -/
def deleteTopic : PeerSubscription → PubsubTopic → List ContentTopic → Option PeerSubscription
  | [], _, _ => none
  | (u, c) :: rest, t, cts =>
      if u = t then
        let c' := c.filter (fun ct => ct ∉ cts)
        if c'.isEmpty then some rest else some ((u, c') :: rest)
      else
        match deleteTopic rest t cts with
        | none => none
        | some rest' => some ((u, c) :: rest')

/-- Modelled from the spec: `Delete(peer, pubsubTopic, contentTopics)` —
removes the given content topics from the peer's set under that pubsub
topic; `none` (`NoSubscriptionError`) when the peer or the pubsub-topic
entry does not exist; an emptied topic removes the topic mapping, a peer
left with no topics is removed (spec §4.1). -/
def delete : SubscribersMap → PeerID → PubsubTopic → List ContentTopic → Option SubscribersMap
  | [], _, _, _ => none
  | (q, sub) :: rest, p, t, cts =>
      if q = p then
        match deleteTopic sub t cts with
        | none => none
        | some sub' => if sub'.isEmpty then some rest else some ((q, sub') :: rest)
      else
        match delete rest p t cts with
        | none => none
        | some rest' => some ((q, sub) :: rest')

/-- Remove every entry of a peer from the registry. -/
def removePeer : SubscribersMap → PeerID → SubscribersMap
  | [], _ => []
  | (q, sub) :: rest, p =>
      if q = p then removePeer rest p else (q, sub) :: removePeer rest p

/-- Modelled from the spec: `DeleteAll(peer)` — removes every subscription
entry for the peer; `none` (`NoSubscriptionError`) when the peer has none
(spec §4.1). -/
def deleteAll (s : SubscribersMap) (p : PeerID) : Option SubscribersMap :=
  if has s p then some (removePeer s p) else none

/-- Does this peer subscription cover the (pubsub topic, content topic)
pair? -/
def subscribedTo (sub : PeerSubscription) (pt : PubsubTopic) (ct : ContentTopic) : Bool :=
  sub.any (fun e => e.1 == pt && e.2.contains ct)

/-- Modelled from the spec: `Items(pubsubTopic, contentTopic)` — every peer
currently subscribed to that exact pair (spec §4.1). -/
def items : SubscribersMap → PubsubTopic → ContentTopic → List PeerID
  | [], _, _ => []
  | (q, sub) :: rest, pt, ct =>
      if subscribedTo sub pt ct then q :: items rest pt ct
      else items rest pt ct

/-- A health-record update applied to a peer after a delivery attempt
(`FlagAsSuccess` / `FlagAsFailure`, spec §4.1). -/
inductive FlagEvent where
  | flagAsFailure
  | flagAsSuccess
  deriving DecidableEq, Repr

end WakuFilter

namespace FilterServer

open WakuFilter

/-- `pb.FilterSubscribeRequest.FilterSubscribeType` (server.go:114-123). -/
inductive FilterSubscribeType where
  | SUBSCRIBE
  | SUBSCRIBER_PING
  | UNSUBSCRIBE
  | UNSUBSCRIBE_ALL
  deriving DecidableEq, Repr

/-- `pb.FilterSubscribeRequest`: requestId, type, pubsub topic and content
topics (spec §6 message shapes). -/
structure FilterSubscribeRequest where
  requestId : String
  filterSubscribeType : FilterSubscribeType
  pubsubTopic : String
  contentTopics : List String
  deriving DecidableEq, Repr

/-- `pb.FilterSubscribeResponse`: requestId, numeric status code and a
status description. -/
structure FilterSubscribeResponse where
  requestId : String
  statusCode : Nat
  statusDesc : String
  deriving DecidableEq, Repr

/-- The limits used by the handler.  `maxSubscriptions` is the
`WakuFilterFullNode` field set from `params.MaxSubscribers` (server.go:62);
`MaxContentTopicsPerRequest` and `MaxCriteriaPerSubscription` are package
constants whose defining file is outside the excerpt — Modelled from the
spec: configured limits (spec §6). -/
structure FilterLimits where
  maxSubscriptions : Nat
  maxContentTopicsPerRequest : Nat
  maxCriteriaPerSubscription : Nat
  deriving DecidableEq, Repr

/-- `peerHasNoSubscription` (server.go:32). -/
def peerHasNoSubscription : String := "peer has no subscriptions"

/-- `http.StatusText` restricted to the closed set of codes the handler
uses (spec §9: define the status-text table locally). -/
def statusText (code : Nat) : String :=
  if code = 200 then "OK"
  else if code = 400 then "Bad Request"
  else if code = 404 then "Not Found"
  else if code = 503 then "Service Unavailable"
  else ""

/-- `reply` (server.go:131-149): builds the response; the description
defaults to the standard status text when none is supplied.  The variadic
`description ...string` is a list; the stream write itself is outside the
model. -/
def reply (request : FilterSubscribeRequest) (statusCode : Nat)
    (description : List String) : FilterSubscribeResponse :=
  { requestId := request.requestId
    statusCode := statusCode
    statusDesc := if description.length ≠ 0 then description.headD "" else statusText statusCode }

/-- `ping` (server.go:151-159): 200 when the registry has the peer, else
404 with `peerHasNoSubscription`.  Returns the replies written on the
stream and the (unchanged) registry. -/
def ping (subs : SubscribersMap) (peerID : PeerID) (request : FilterSubscribeRequest) :
    List FilterSubscribeResponse × SubscribersMap :=
  if has subs peerID then
    ([reply request 200 []], subs)
  else
    ([reply request 404 [peerHasNoSubscription]], subs)

/-- The total number of content topics a peer holds across its pubsub
topics (the `ctTotal` accumulation loop, server.go:184-187). -/
def ctTotalOf (sub : PeerSubscription) : Nat :=
  sub.foldl (fun acc e => acc + e.2.length) 0

/-- `subscribe` (server.go:161-200).  Returns the replies written on the
stream, in order, and the resulting registry.  Note: in the source the
over-limit content-topic check (server.go:172-174) sends its 400 reply
without a `return` statement, so execution falls through to the remaining
checks; the model keeps that behaviour (`pre`). -/
def subscribe (cfg : FilterLimits) (subs : SubscribersMap) (peerID : PeerID)
    (request : FilterSubscribeRequest) : List FilterSubscribeResponse × SubscribersMap :=
  if request.pubsubTopic = "" then
    ([reply request 400 ["pubsubtopic can't be empty"]], subs)
  else if request.contentTopics.length = 0 then
    ([reply request 400 ["at least one contenttopic should be specified"]], subs)
  else
    let pre : List FilterSubscribeResponse :=
      if request.contentTopics.length > cfg.maxContentTopicsPerRequest then
        [reply request 400
          ["exceeds maximum content topics: " ++ toString cfg.maxContentTopicsPerRequest]]
      else []
    if count subs ≥ cfg.maxSubscriptions then
      (pre ++ [reply request 503 ["node has reached maximum number of subscriptions"]], subs)
    else
      match getPeer subs peerID with
      | some totalSubs =>
          if ctTotalOf totalSubs + request.contentTopics.length >
              cfg.maxCriteriaPerSubscription then
            (pre ++ [reply request 503 ["peer has reached maximum number of filter criteria"]],
              subs)
          else
            (pre ++ [reply request 200 []],
              set subs peerID request.pubsubTopic request.contentTopics)
      | none =>
          (pre ++ [reply request 200 []],
            set subs peerID request.pubsubTopic request.contentTopics)

/-- `unsubscribe` (server.go:202-224).  The over-limit check
(server.go:213-215) likewise sends its 400 reply without returning. -/
def unsubscribe (cfg : FilterLimits) (subs : SubscribersMap) (peerID : PeerID)
    (request : FilterSubscribeRequest) : List FilterSubscribeResponse × SubscribersMap :=
  if request.pubsubTopic = "" then
    ([reply request 400 ["pubsubtopic can't be empty"]], subs)
  else if request.contentTopics.length = 0 then
    ([reply request 400 ["at least one contenttopic should be specified"]], subs)
  else
    let pre : List FilterSubscribeResponse :=
      if request.contentTopics.length > cfg.maxContentTopicsPerRequest then
        [reply request 400
          ["exceeds maximum content topics: " ++ toString cfg.maxContentTopicsPerRequest]]
      else []
    match delete subs peerID request.pubsubTopic request.contentTopics with
    | none => (pre ++ [reply request 404 [peerHasNoSubscription]], subs)
    | some subs' => (pre ++ [reply request 200 []], subs')

/-- `unsubscribeAll` (server.go:226-234). -/
def unsubscribeAll (subs : SubscribersMap) (peerID : PeerID)
    (request : FilterSubscribeRequest) : List FilterSubscribeResponse × SubscribersMap :=
  match deleteAll subs peerID with
  | none => ([reply request 404 [peerHasNoSubscription]], subs)
  | some subs' => ([reply request 200 []], subs')

/-- Outcome of one accepted inbound stream. -/
structure OnRequestResult where
  responses : List FilterSubscribeResponse
  subs : SubscribersMap
  closed : Bool
  deriving DecidableEq, Repr

/-- `onRequest` (server.go:95-129): one request is read per stream;
`decoded = none` is a decode failure (`ReadMsg` error), in which case the
handler returns without replying; the `defer s.Close()` closes the stream
on every path. -/
def onRequest (cfg : FilterLimits) (subs : SubscribersMap) (peerID : PeerID)
    (decoded : Option FilterSubscribeRequest) : OnRequestResult :=
  match decoded with
  | none => { responses := [], subs := subs, closed := true }
  | some request =>
      let r :=
        match request.filterSubscribeType with
        | .SUBSCRIBE => subscribe cfg subs peerID request
        | .SUBSCRIBER_PING => ping subs peerID request
        | .UNSUBSCRIBE => unsubscribe cfg subs peerID request
        | .UNSUBSCRIBE_ALL => unsubscribeAll subs peerID request
      { responses := r.1, subs := r.2, closed := true }

/-- An inbound envelope from the upstream bus: pubsub topic, content topic
and an opaque message payload. -/
structure Envelope where
  pubsubTopic : PubsubTopic
  contentTopic : ContentTopic
  payload : String
  deriving DecidableEq, Repr

/-- `pb.MessagePushV2` (server.go:280-283): the only payload ever written
on an outbound push stream. -/
structure MessagePushV2 where
  pubsubTopic : PubsubTopic
  wakuMessage : String
  deriving DecidableEq, Repr

/-- The observable outcome of one `pushMessage` call: the health-record
updates applied to the peer, whether a non-nil error was returned to the
caller, and what was written on the peer's stream. -/
structure PushResult where
  flags : List FlagEvent
  err : Bool
  sent : List MessagePushV2
  deriving DecidableEq, Repr

/-- `pushMessage` (server.go:277-316), with the nondeterministic I/O
outcomes (`NewStream` success, `WriteMsg` success) passed as booleans:
dial failure flags the peer as failure and returns the error; write
failure flags the peer as failure but returns nil; success flags the peer
as success and returns nil. -/
def pushMessage (env : Envelope) (dialOk : Bool) (writeOk : Bool) : PushResult :=
  let messagePush : MessagePushV2 :=
    { pubsubTopic := env.pubsubTopic, wakuMessage := env.payload }
  if dialOk = false then
    { flags := [.flagAsFailure], err := true, sent := [] }
  else if writeOk = false then
    { flags := [.flagAsFailure], err := false, sent := [] }
  else
    { flags := [.flagAsSuccess], err := false, sent := [messagePush] }

/-- The `handle` closure of `filterListener` (server.go:241-268): for each
subscriber matching the envelope, one independent push is spawned whose
error is only logged inside its own goroutine; `handle` itself always
returns nil.  `io` gives each peer's (dial, write) outcomes. -/
def handle (subs : SubscribersMap) (env : Envelope) (io_ : PeerID → Bool × Bool) :
    List (PeerID × PushResult) × Bool :=
  ((items subs env.pubsubTopic env.contentTopic).map
      (fun subscriber => (subscriber, pushMessage env (io_ subscriber).1 (io_ subscriber).2)),
    false)

/-- The consume loop of `filterListener` (server.go:270-274): every message
from the bus channel is handled; a handling error would only be logged and
never stops the loop. -/
def filterListener (subs : SubscribersMap) (msgs : List Envelope)
    (io_ : Envelope → PeerID → Bool × Bool) : List (List (PeerID × PushResult) × Bool) :=
  msgs.map (fun m => handle subs m (io_ m))

end FilterServer

namespace WakuFilter

theorem mem_ctInsert_self (c : ContentTopicSet) (ct : ContentTopic) : ct ∈ ctInsert c ct := by
  unfold ctInsert
  by_cases h : ct ∈ c
  · rw [if_pos h]; exact h
  · rw [if_neg h]; exact List.mem_append_right c (List.mem_singleton.mpr rfl)

theorem mem_ctInsert_of_mem (c : ContentTopicSet) (x y : ContentTopic) (hx : x ∈ c) :
    x ∈ ctInsert c y := by
  unfold ctInsert
  by_cases h : y ∈ c
  · rw [if_pos h]; exact hx
  · rw [if_neg h]; exact List.mem_append_left _ hx

theorem mem_ctUnion_of_mem (cts : List ContentTopic) (c : ContentTopicSet) (x : ContentTopic)
    (hx : x ∈ c) : x ∈ ctUnion c cts := by
  induction cts generalizing c with
  | nil => exact hx
  | cons a rest ih =>
      have : x ∈ ctInsert c a := mem_ctInsert_of_mem c x a hx
      exact ih (ctInsert c a) this

theorem mem_ctUnion_of_mem_arg (cts : List ContentTopic) (c : ContentTopicSet)
    (x : ContentTopic) (hx : x ∈ cts) : x ∈ ctUnion c cts := by
  induction cts generalizing c with
  | nil => cases hx
  | cons a rest ih =>
      rcases List.mem_cons.mp hx with h | h
      · subst h
        exact mem_ctUnion_of_mem rest (ctInsert c x) x (mem_ctInsert_self c x)
      · exact ih (ctInsert c a) h

theorem ctUnion_eq_self_of_subset (cts : List ContentTopic) (c : ContentTopicSet)
    (h : ∀ x ∈ cts, x ∈ c) : ctUnion c cts = c := by
  induction cts generalizing c with
  | nil => rfl
  | cons a rest ih =>
      have ha : a ∈ c := h a (List.mem_cons_self a rest)
      have step : ctInsert c a = c := by unfold ctInsert; rw [if_pos ha]
      show ctUnion (ctInsert c a) rest = c
      rw [step]
      exact ih c (fun x hx => h x (List.mem_cons_of_mem a hx))

theorem ctUnion_idem (c : ContentTopicSet) (cts : List ContentTopic) :
    ctUnion (ctUnion c cts) cts = ctUnion c cts :=
  ctUnion_eq_self_of_subset cts (ctUnion c cts) (fun x hx => mem_ctUnion_of_mem_arg cts c x hx)

theorem setTopic_nil (t : PubsubTopic) (cts : List ContentTopic) :
    setTopic [] t cts = [(t, ctUnion [] cts)] := rfl

theorem setTopic_cons (u : PubsubTopic) (c : ContentTopicSet) (rest : PeerSubscription)
    (t : PubsubTopic) (cts : List ContentTopic) :
    setTopic ((u, c) :: rest) t cts
      = if u = t then (u, ctUnion c cts) :: rest else (u, c) :: setTopic rest t cts := rfl

theorem set_nil (p : PeerID) (t : PubsubTopic) (cts : List ContentTopic) :
    set [] p t cts = [(p, setTopic [] t cts)] := rfl

theorem set_cons (q : PeerID) (sub : PeerSubscription) (rest : SubscribersMap) (p : PeerID)
    (t : PubsubTopic) (cts : List ContentTopic) :
    set ((q, sub) :: rest) p t cts
      = if q = p then (q, setTopic sub t cts) :: rest else (q, sub) :: set rest p t cts := rfl

theorem setTopic_idem (sub : PeerSubscription) (t : PubsubTopic) (cts : List ContentTopic) :
    setTopic (setTopic sub t cts) t cts = setTopic sub t cts := by
  induction sub with
  | nil =>
      rw [setTopic_nil, setTopic_cons, if_pos rfl, ctUnion_idem]
  | cons e rest ih =>
      obtain ⟨u, c⟩ := e
      by_cases h : u = t
      · rw [setTopic_cons, if_pos h, setTopic_cons, if_pos h, ctUnion_idem]
      · rw [setTopic_cons, if_neg h, setTopic_cons, if_neg h, ih]

theorem set_idem (s : SubscribersMap) (p : PeerID) (t : PubsubTopic)
    (cts : List ContentTopic) : set (set s p t cts) p t cts = set s p t cts := by
  induction s with
  | nil =>
      rw [set_nil, set_cons, if_pos rfl, setTopic_idem]
  | cons e rest ih =>
      obtain ⟨q, sub⟩ := e
      by_cases h : q = p
      · rw [set_cons, if_pos h, set_cons, if_pos h, setTopic_idem]
      · rw [set_cons, if_neg h, set_cons, if_neg h, ih]

theorem getPeer_removePeer (s : SubscribersMap) (p : PeerID) :
    getPeer (removePeer s p) p = none := by
  induction s with
  | nil => rfl
  | cons e rest ih =>
      obtain ⟨q, sub⟩ := e
      by_cases h : q = p
      · unfold removePeer
        rw [if_pos h]
        exact ih
      · unfold removePeer
        rw [if_neg h]
        unfold getPeer
        rw [if_neg h]
        exact ih

end WakuFilter

namespace FilterServer

open WakuFilter

theorem has_unsubscribeAll_self (subs : SubscribersMap) (p : PeerID)
    (req : FilterSubscribeRequest) : has (unsubscribeAll subs p req).2 p = false := by
  unfold unsubscribeAll deleteAll
  by_cases h : has subs p
  · rw [if_pos h]
    show has (removePeer subs p) p = false
    unfold has
    rw [getPeer_removePeer]
    rfl
  · rw [if_neg h]
    show has subs p = false
    exact Bool.not_eq_true _ ▸ (Bool.of_not_eq_true h)

/-- C6: a Subscribe request with an empty pubsub topic is answered with a
single 400 reply and the registry is not written; likewise a Subscribe
request with an empty content-topic list is answered with a single 400
reply and the registry is not written. -/
theorem subscribe_empty_validation (cfg : FilterLimits) (subs : SubscribersMap)
    (p : PeerID) (req : FilterSubscribeRequest) :
    (req.pubsubTopic = "" →
      subscribe cfg subs p req = ([reply req 400 ["pubsubtopic can't be empty"]], subs))
    ∧ (req.contentTopics = [] →
      (subscribe cfg subs p req).1.map (fun r => r.statusCode) = [400]
      ∧ (subscribe cfg subs p req).2 = subs) := by
  constructor
  · intro h
    simp [subscribe, h]
  · intro h
    by_cases hp : req.pubsubTopic = ""
    · simp [subscribe, hp, reply]
    · simp [subscribe, hp, h, reply]

/-- Witness for C6 at a concrete request with both an empty pubsub topic
and an empty content-topic list. -/
theorem subscribe_empty_validation_witness :
    (subscribe ⟨5, 5, 5⟩ [] "p" ⟨"r", .SUBSCRIBE, "", []⟩
      = ([reply ⟨"r", .SUBSCRIBE, "", []⟩ 400 ["pubsubtopic can't be empty"]], []))
    ∧ ((subscribe ⟨5, 5, 5⟩ [] "p" ⟨"r", .SUBSCRIBE, "", []⟩).1.map (fun r => r.statusCode)
        = [400]
      ∧ (subscribe ⟨5, 5, 5⟩ [] "p" ⟨"r", .SUBSCRIBE, "", []⟩).2 = []) :=
  ⟨(subscribe_empty_validation ⟨5, 5, 5⟩ [] "p" ⟨"r", .SUBSCRIBE, "", []⟩).1 rfl,
    (subscribe_empty_validation ⟨5, 5, 5⟩ [] "p" ⟨"r", .SUBSCRIBE, "", []⟩).2 rfl⟩

/-- C5: Ping replies 200 exactly when the registry has the peer and
otherwise 404 with "peer has no subscriptions"; after any Subscribe
followed by UnsubscribeAll, a Ping replies 404, and a further
UnsubscribeAll on the same peer also replies 404. -/
theorem ping_iff_has_and_roundtrip (cfg : FilterLimits) (subs : SubscribersMap) (p : PeerID)
    (req req2 req3 : FilterSubscribeRequest) :
    (ping subs p req).1
      = [if has subs p then reply req 200 [] else reply req 404 [peerHasNoSubscription]]
    ∧ (ping (unsubscribeAll (subscribe cfg subs p req).2 p req2).2 p req3).1
      = [reply req3 404 [peerHasNoSubscription]]
    ∧ (unsubscribeAll (unsubscribeAll (subscribe cfg subs p req).2 p req2).2 p req3).1
      = [reply req3 404 [peerHasNoSubscription]] := by
  refine ⟨?_, ?_, ?_⟩
  · by_cases h : has subs p
    · simp [ping, h]
    · simp [ping, h]
  · have h := has_unsubscribeAll_self (subscribe cfg subs p req).2 p req2
    simp [ping, h]
  · have h := has_unsubscribeAll_self (subscribe cfg subs p req).2 p req2
    generalize hgen : (unsubscribeAll (subscribe cfg subs p req).2 p req2).2 = s2 at h ⊢
    simp [unsubscribeAll, deleteAll, h]

/-- C8: per accepted stream, the stream is closed on every path; on a
decode failure no response is written and the registry is untouched. -/
theorem onRequest_single_read_close (cfg : FilterLimits) (subs : SubscribersMap) (p : PeerID)
    (decoded : Option FilterSubscribeRequest) :
    (onRequest cfg subs p decoded).closed = true
    ∧ (decoded = none →
        (onRequest cfg subs p decoded).responses = []
        ∧ (onRequest cfg subs p decoded).subs = subs) := by
  cases decoded with
  | none => exact ⟨rfl, fun _ => ⟨rfl, rfl⟩⟩
  | some request => exact ⟨rfl, fun h => by cases h⟩

/-- Witness for C8 at a concrete decode failure. -/
theorem onRequest_single_read_close_witness :
    (onRequest ⟨1, 1, 1⟩ [] "p" none).closed = true
    ∧ ((onRequest ⟨1, 1, 1⟩ [] "p" none).responses = []
      ∧ (onRequest ⟨1, 1, 1⟩ [] "p" none).subs = []) :=
  ⟨(onRequest_single_read_close ⟨1, 1, 1⟩ [] "p" none).1,
    (onRequest_single_read_close ⟨1, 1, 1⟩ [] "p" none).2 rfl⟩

/-- C9: for a peer with no existing registry entry, the per-peer criteria
check is skipped: when the emptiness, per-request-size and node-capacity
checks pass, the handler registers the subscription and replies 200 — with
no condition on `maxCriteriaPerSubscription` at all. -/
theorem subscribe_new_peer_skips_criteria_check (cfg : FilterLimits) (subs : SubscribersMap)
    (p : PeerID) (req : FilterSubscribeRequest)
    (h1 : ¬ req.pubsubTopic = "")
    (h2 : ¬ req.contentTopics.length = 0)
    (h3 : ¬ req.contentTopics.length > cfg.maxContentTopicsPerRequest)
    (h4 : ¬ count subs ≥ cfg.maxSubscriptions)
    (h5 : getPeer subs p = none) :
    subscribe cfg subs p req
      = ([reply req 200 []], set subs p req.pubsubTopic req.contentTopics) := by
  simp [subscribe, h1, h2, h3, h4, h5]

/-- Witness for C9: a brand-new peer subscribing with 2 content topics
while `maxCriteriaPerSubscription` is only 1 still gets 200. -/
theorem subscribe_new_peer_skips_criteria_check_witness :
    subscribe ⟨2, 3, 1⟩ [] "p" ⟨"r", .SUBSCRIBE, "t", ["a", "b"]⟩
      = ([reply ⟨"r", .SUBSCRIBE, "t", ["a", "b"]⟩ 200 []], set [] "p" "t" ["a", "b"])
    ∧ (⟨"r", .SUBSCRIBE, "t", ["a", "b"]⟩ : FilterSubscribeRequest).contentTopics.length
        > (FilterLimits.mk 2 3 1).maxCriteriaPerSubscription :=
  ⟨subscribe_new_peer_skips_criteria_check ⟨2, 3, 1⟩ [] "p" ⟨"r", .SUBSCRIBE, "t", ["a", "b"]⟩
      (by decide) (by decide) (by decide) (by decide) rfl,
    by decide⟩

/-- C10: `pushMessage` returns a non-nil error exactly when opening the
outbound stream fails; a write failure flags the peer as failure yet
returns nil, indistinguishable to the caller from a success. -/
theorem pushMessage_error_only_on_dial_failure (env : Envelope) (d w : Bool) :
    ((pushMessage env d w).err = true ↔ d = false)
    ∧ (d = true → w = false →
        (pushMessage env d w).flags = [FlagEvent.flagAsFailure]
        ∧ (pushMessage env d w).err = false
        ∧ (pushMessage env d w).err = (pushMessage env true true).err) := by
  cases d <;> cases w <;> simp [pushMessage]

/-- Witness for C10 at a concrete write failure. -/
theorem pushMessage_error_only_on_dial_failure_witness :
    (pushMessage ⟨"t", "c", "m"⟩ true false).flags = [FlagEvent.flagAsFailure]
    ∧ (pushMessage ⟨"t", "c", "m"⟩ true false).err = false
    ∧ (pushMessage ⟨"t", "c", "m"⟩ true false).err = (pushMessage ⟨"t", "c", "m"⟩ true true).err :=
  (pushMessage_error_only_on_dial_failure ⟨"t", "c", "m"⟩ true false).2 rfl rfl

/-- C7: the dispatch loop processes every message and every matching
subscriber regardless of push failures — each entry's outcome depends only
on that peer's own I/O; `handle` never returns an error; a failed push
flags the peer as failure, a successful one as success; and the only
payload ever written to a peer is the `MessagePushV2` for the envelope,
never an error. -/
theorem filterListener_fanout_isolation (subs : SubscribersMap) (msgs : List Envelope)
    (io_ : Envelope → PeerID → Bool × Bool) :
    (filterListener subs msgs io_).length = msgs.length
    ∧ (∀ i : Nat, (filterListener subs msgs io_)[i]?
        = (msgs[i]?).map (fun m => handle subs m (io_ m)))
    ∧ (∀ env : Envelope, ∀ io2 : PeerID → Bool × Bool,
        (handle subs env io2).2 = false
        ∧ (handle subs env io2).1.length = (items subs env.pubsubTopic env.contentTopic).length
        ∧ ∀ pr ∈ (handle subs env io2).1,
            pr.2 = pushMessage env (io2 pr.1).1 (io2 pr.1).2
            ∧ pr.2.flags
                = [if (io2 pr.1).1 && (io2 pr.1).2 then FlagEvent.flagAsSuccess
                  else FlagEvent.flagAsFailure]
            ∧ ∀ mp ∈ pr.2.sent,
                mp = { pubsubTopic := env.pubsubTopic, wakuMessage := env.payload }) := by
  refine ⟨by simp [filterListener], ?_, ?_⟩
  · intro i
    simp [filterListener]
  · intro env io2
    refine ⟨rfl, by simp [handle], ?_⟩
    intro pr hpr
    simp only [handle] at hpr
    rcases List.mem_map.mp hpr with ⟨sub, hsub, rfl⟩
    refine ⟨rfl, ?_, ?_⟩
    · cases h1 : (io2 sub).1 <;> cases h2 : (io2 sub).2 <;> simp [pushMessage, h1, h2]
    · intro mp hmp
      cases h1 : (io2 sub).1 <;> cases h2 : (io2 sub).2 <;>
        simp_all [pushMessage]

/-- Witness for C7: one subscriber whose dial fails is flagged as failure,
and `handle` still reports no error. -/
theorem filterListener_fanout_isolation_witness :
    (handle [("p", [("t", ["a"])])] ⟨"t", "a", "m"⟩ (fun _ => (false, true))).2 = false
    ∧ (pushMessage ⟨"t", "a", "m"⟩ false true).flags = [FlagEvent.flagAsFailure] := by
  have T := filterListener_fanout_isolation [("p", [("t", ["a"])])] [⟨"t", "a", "m"⟩]
    (fun _ _ => (false, true))
  refine ⟨(T.2.2 ⟨"t", "a", "m"⟩ (fun _ => (false, true))).1, ?_⟩
  have h := ((T.2.2 ⟨"t", "a", "m"⟩ (fun _ => (false, true))).2.2
    ("p", pushMessage ⟨"t", "a", "m"⟩ false true) (by decide)).2.1
  simpa using h

/-- C1 (code evaluated at the failing input): because the over-limit
content-topic check sends its 400 reply without returning
(server.go:172-174 and 213-215), a Subscribe request whose content-topic
list exceeds the per-request limit is answered with TWO replies (400 then
200) and the oversized subscription is even registered; an Unsubscribe
request with an oversized list likewise gets two replies (400 then 404
here).  This contradicts the claim that exactly one reply is written per
decoded request. -/
theorem subscribe_oversized_emits_two_replies :
    (subscribe ⟨5, 1, 5⟩ [] "p" ⟨"r", .SUBSCRIBE, "t", ["a", "b"]⟩).1
      = [reply ⟨"r", .SUBSCRIBE, "t", ["a", "b"]⟩ 400 ["exceeds maximum content topics: 1"],
        reply ⟨"r", .SUBSCRIBE, "t", ["a", "b"]⟩ 200 []]
    ∧ (subscribe ⟨5, 1, 5⟩ [] "p" ⟨"r", .SUBSCRIBE, "t", ["a", "b"]⟩).1.length = 2
    ∧ (subscribe ⟨5, 1, 5⟩ [] "p" ⟨"r", .SUBSCRIBE, "t", ["a", "b"]⟩).2
      = [("p", [("t", ["a", "b"])])]
    ∧ (unsubscribe ⟨5, 1, 5⟩ [] "p" ⟨"r", .UNSUBSCRIBE, "t", ["a", "b"]⟩).1.length = 2 := by
  decide

/-- C3 (code evaluated at the failing input): an oversized Subscribe
request is NOT rejected with only a 400 — the handler goes on and writes a
second reply (503 here, with the node at capacity); a request with exactly
the limit of content topics does succeed with a single 200 (the boundary
half of the claim). -/
theorem subscribe_oversized_not_only_400 :
    (subscribe ⟨0, 1, 5⟩ [] "p" ⟨"r", .SUBSCRIBE, "t", ["a", "b"]⟩).1
      = [reply ⟨"r", .SUBSCRIBE, "t", ["a", "b"]⟩ 400 ["exceeds maximum content topics: 1"],
        reply ⟨"r", .SUBSCRIBE, "t", ["a", "b"]⟩ 503
          ["node has reached maximum number of subscriptions"]]
    ∧ (subscribe ⟨5, 2, 5⟩ [] "p" ⟨"r2", .SUBSCRIBE, "t", ["a", "b"]⟩).1
      = [reply ⟨"r2", .SUBSCRIBE, "t", ["a", "b"]⟩ 200 []] := by
  decide

/-- C2 (counterexample): with the node at capacity (`count = 1 =
maxSubscriptions`), a Subscribe request from the peer that is ALREADY
subscribed is still rejected with 503 — the capacity check at
server.go:176 has no exemption for already-subscribed peers, contradicting
the claim that such a request succeeds. -/
theorem subscribe_counterexample_already_subscribed_at_capacity :
    has [("p", [("t", ["a"])])] "p" = true
    ∧ count [("p", [("t", ["a"])])] ≥ (FilterLimits.mk 1 5 10).maxSubscriptions
    ∧ (subscribe ⟨1, 5, 10⟩ [("p", [("t", ["a"])])] "p" ⟨"r2", .SUBSCRIBE, "t", ["b"]⟩).1
        = [reply ⟨"r2", .SUBSCRIBE, "t", ["b"]⟩ 503
            ["node has reached maximum number of subscriptions"]]
    ∧ (subscribe ⟨1, 5, 10⟩ [("p", [("t", ["a"])])] "p" ⟨"r2", .SUBSCRIBE, "t", ["b"]⟩).2
        = [("p", [("t", ["a"])])] := by
  decide

/-- C2 (amended): for every Subscribe request that passes the emptiness
and size validations, the handler replies 503 "node has reached maximum
number of subscriptions" whenever `count ≥ maxSubscriptions` at the time
of the request — regardless of whether the requesting peer is already
subscribed — and leaves the registry unchanged. -/
theorem subscribe_at_capacity_rejects_any_peer (cfg : FilterLimits) (subs : SubscribersMap)
    (p : PeerID) (req : FilterSubscribeRequest)
    (h1 : ¬ req.pubsubTopic = "")
    (h2 : ¬ req.contentTopics.length = 0)
    (h3 : ¬ req.contentTopics.length > cfg.maxContentTopicsPerRequest)
    (h4 : count subs ≥ cfg.maxSubscriptions) :
    subscribe cfg subs p req
      = ([reply req 503 ["node has reached maximum number of subscriptions"]], subs) := by
  simp [subscribe, h1, h2, h3, h4]

/-- Witness for the amended C2, at a peer that is already subscribed. -/
theorem subscribe_at_capacity_rejects_any_peer_witness :
    subscribe ⟨1, 5, 10⟩ [("p", [("t", ["a"])])] "p" ⟨"r3", .SUBSCRIBE, "u", ["b"]⟩
      = ([reply ⟨"r3", .SUBSCRIBE, "u", ["b"]⟩ 503
          ["node has reached maximum number of subscriptions"]], [("p", [("t", ["a"])])]) :=
  subscribe_at_capacity_rejects_any_peer ⟨1, 5, 10⟩ [("p", [("t", ["a"])])] "p"
    ⟨"r3", .SUBSCRIBE, "u", ["b"]⟩ (by decide) (by decide) (by decide) (by decide)

/-- C4 (counterexample): with `maxCriteriaPerSubscription = 3`, a first
Subscribe with content topics ["a", "b"] succeeds; the identical second
request is rejected with 503 even though the peer's distinct content-topic
set (2 topics) is within the cap — the check at server.go:189 adds the raw
request length to the existing total, double-counting the duplicates. -/
theorem subscribe_counterexample_duplicate_double_counted :
    subscribe ⟨10, 10, 3⟩ [] "p" ⟨"r", .SUBSCRIBE, "t", ["a", "b"]⟩
      = ([reply ⟨"r", .SUBSCRIBE, "t", ["a", "b"]⟩ 200 []], [("p", [("t", ["a", "b"])])])
    ∧ (subscribe ⟨10, 10, 3⟩ [("p", [("t", ["a", "b"])])] "p"
          ⟨"r", .SUBSCRIBE, "t", ["a", "b"]⟩).1
        = [reply ⟨"r", .SUBSCRIBE, "t", ["a", "b"]⟩ 503
            ["peer has reached maximum number of filter criteria"]]
    ∧ ctTotalOf [("t", ["a", "b"])] ≤ (FilterLimits.mk 10 10 3).maxCriteriaPerSubscription := by
  decide

/-- C4 (amended): repeating a valid Subscribe request never changes the
registry again (`set` is an idempotent union-insert), but the per-peer
criteria check double-counts: the second identical request is rejected
with 503 exactly when the peer's existing distinct content-topic total
plus the raw length of the request's list exceeds
`maxCriteriaPerSubscription`, and succeeds with a 200 otherwise. -/
theorem subscribe_repeat_idempotent_but_double_counts (cfg : FilterLimits)
    (subs : SubscribersMap) (p : PeerID) (req : FilterSubscribeRequest)
    (h1 : ¬ req.pubsubTopic = "")
    (h2 : ¬ req.contentTopics.length = 0)
    (h3 : ¬ req.contentTopics.length > cfg.maxContentTopicsPerRequest)
    (h4 : ¬ count (set subs p req.pubsubTopic req.contentTopics) ≥ cfg.maxSubscriptions) :
    (subscribe cfg (set subs p req.pubsubTopic req.contentTopics) p req).2
      = set subs p req.pubsubTopic req.contentTopics
    ∧ ∀ sub1, getPeer (set subs p req.pubsubTopic req.contentTopics) p = some sub1 →
        (ctTotalOf sub1 + req.contentTopics.length > cfg.maxCriteriaPerSubscription →
          (subscribe cfg (set subs p req.pubsubTopic req.contentTopics) p req).1
            = [reply req 503 ["peer has reached maximum number of filter criteria"]])
        ∧ (¬ ctTotalOf sub1 + req.contentTopics.length > cfg.maxCriteriaPerSubscription →
          (subscribe cfg (set subs p req.pubsubTopic req.contentTopics) p req).1
            = [reply req 200 []]) := by
  constructor
  · rcases hg : getPeer (set subs p req.pubsubTopic req.contentTopics) p with _ | sub1
    · simp [subscribe, h1, h2, h3, h4, hg, set_idem]
    · by_cases hc : ctTotalOf sub1 + req.contentTopics.length > cfg.maxCriteriaPerSubscription
      · simp [subscribe, h1, h2, h3, h4, hg, hc]
      · simp [subscribe, h1, h2, h3, h4, hg, hc, set_idem]
  · intro sub1 hg
    constructor
    · intro hc
      simp [subscribe, h1, h2, h3, h4, hg, hc]
    · intro hc
      simp [subscribe, h1, h2, h3, h4, hg, hc]

/-- Witness for the amended C4: the double-counted second request from the
counterexample configuration is rejected with 503 and leaves the registry
unchanged. -/
theorem subscribe_repeat_idempotent_but_double_counts_witness :
    (subscribe ⟨10, 10, 3⟩ (set [] "p" "t" ["a", "b"]) "p"
        ⟨"r", .SUBSCRIBE, "t", ["a", "b"]⟩).2
      = set [] "p" "t" ["a", "b"]
    ∧ (subscribe ⟨10, 10, 3⟩ (set [] "p" "t" ["a", "b"]) "p"
        ⟨"r", .SUBSCRIBE, "t", ["a", "b"]⟩).1
      = [reply ⟨"r", .SUBSCRIBE, "t", ["a", "b"]⟩ 503
          ["peer has reached maximum number of filter criteria"]] := by
  have T := subscribe_repeat_idempotent_but_double_counts ⟨10, 10, 3⟩ [] "p"
    ⟨"r", .SUBSCRIBE, "t", ["a", "b"]⟩ (by decide) (by decide) (by decide) (by decide)
  exact ⟨T.1, (T.2 [("t", ["a", "b"])] (by decide)).1 (by decide)⟩

end FilterServer
